import Mathlib

/-!
# Verification of the `chatroom` repository core

A shallow embedding of the chat service's protocol layer
(`protocol/src/message.rs`, `protocol/src/codec.rs`), the server's shared
registry and session handling (`chat-server/src/server.rs`), and the
client's event handling (`chat-client/src/client.rs`), together with
theorems settling the specification claims about them.

Rust `String` values are modelled as lists of UTF-8 bytes (`RStr`), so
`len()` (byte length) is `List.length`.  Machine integers (`u32`, `u64`)
are modelled as `Nat`, with an explicit `% 2^32` / `% 2^64` where the
source can overflow.
-/

namespace Chatroom

/-- Rust strings, as their UTF-8 byte sequences. -/
abbrev RStr := List Nat

/-! ## Constants (protocol/src/constants.rs) -/

/-- `PROTOCOL_VERSION: u8 = 1` -/
def PROTOCOL_VERSION : Nat := 1

/-- `MAX_USERNAME_LEN: usize = 20` -/
def MAX_USERNAME_LEN : Nat := 20

/-- `MAX_MESSAGE_LEN: usize = 4096` -/
def MAX_MESSAGE_LEN : Nat := 4096

/-- `MAX_FRAME_SIZE: usize = 8192` -/
def MAX_FRAME_SIZE : Nat := 8192

/-- `MAX_CONNECTIONS: usize = 100` -/
def MAX_CONNECTIONS : Nat := 100

/-! ## Message types (protocol/src/message.rs)

`ServerMessage` in `protocol/src/message.rs` declares the variants
`Welcome { user_id }`, `UserJoined`, `UserLeft`, `ChatBroadcast`,
`Error`, `Pong`.  `chat-server/src/server.rs` additionally constructs
`ServerMessage::Shutdown { message }` (and `chat-client/src/client.rs`
matches on it), so the embedding carries that variant as well, appended
after the declared six.  Note that `Welcome` carries only `user_id`:
neither `message.rs` nor `server.rs` gives it an `online_users` field
(the chat-client destructures such a field, which `message.rs` does not
declare). -/

/-- `ClientMessage` (protocol/src/message.rs). -/
inductive ClientMessage where
  | join (username : RStr)
  | chat (content : RStr)
  | leave
  | ping
deriving DecidableEq, Repr

/-- `ServerMessage` (protocol/src/message.rs, plus the `Shutdown` variant
used by server.rs / client.rs). -/
inductive ServerMessage where
  | welcome (user_id : Nat)
  | userJoined (username : RStr)
  | userLeft (username : RStr)
  | chatBroadcast (username : RStr) (content : RStr) (timestamp : Nat)
  | error (message : RStr)
  | pong
  | shutdown (message : RStr)
deriving DecidableEq, Repr

/-- `ProtocolError` (protocol/src/error.rs).  The `Io` and `Serialization`
variants carry an inner error in Rust; the inner value does not affect any
modelled control flow, so it is dropped here. -/
inductive ProtocolError where
  | io
  | serialization
  | versionMismatch (expected actual : Nat)
  | frameTooLarge (size max : Nat)
  | connectionTimeout
  | connectionClosed
  | usernameTooLong (len max : Nat)
  | messageTooLong (len max : Nat)
deriving DecidableEq, Repr

/-- `ClientMessage::validate` (protocol/src/message.rs lines 23-51):
a `Join` username must be non-empty and at most `MAX_USERNAME_LEN` bytes;
a `Chat` content must be at most `MAX_MESSAGE_LEN` bytes; `Leave` and
`Ping` always validate.  (There is no character-set check here.) -/
def ClientMessage.validate : ClientMessage → Except ProtocolError Unit
  | .join username =>
      if username.isEmpty then
        .error (.usernameTooLong 0 MAX_USERNAME_LEN)
      else if username.length > MAX_USERNAME_LEN then
        .error (.usernameTooLong username.length MAX_USERNAME_LEN)
      else
        .ok ()
  | .chat content =>
      if content.length > MAX_MESSAGE_LEN then
        .error (.messageTooLong content.length MAX_MESSAGE_LEN)
      else
        .ok ()
  | .leave => .ok ()
  | .ping => .ok ()

/-! ## Embedded string literals

UTF-8 byte sequences of the string literals appearing in the source. -/

/-- "服务器繁忙，请稍后重试" (server.rs, busy rejection). -/
def busyText : RStr := [230, 156, 141, 229, 138, 161, 229, 153, 168, 231, 185, 129, 229, 191, 153, 239, 188, 140, 232, 175, 183, 231, 168, 141, 229, 144, 142, 233, 135, 141, 232, 175, 149]

/-- "无效的用户名: " (server.rs, invalid-username reply format head). -/
def invalidUsernameHead : RStr := [230, 151, 160, 230, 149, 136, 231, 154, 132, 231, 148, 168, 230, 136, 183, 229, 144, 141, 58, 32]

/-- "用户名已存在" (server.rs, duplicate-username reply). -/
def usernameExistsText : RStr := [231, 148, 168, 230, 136, 183, 229, 144, 141, 229, 183, 178, 229, 173, 152, 229, 156, 168]

/-- "请先发送 Join 消息" (server.rs, non-Join first message reply). -/
def notJoinFirstText : RStr := [232, 175, 183, 229, 133, 136, 229, 143, 145, 233, 128, 129, 32, 74, 111, 105, 110, 32, 230, 182, 136, 230, 129, 175]

/-- "加入超时" (server.rs, join timeout reply). -/
def joinTimeoutText : RStr := [229, 138, 160, 229, 133, 165, 232, 182, 133, 230, 151, 182]

/-- "消息无效: " (server.rs, invalid-chat reply format head). -/
def msgInvalidHead : RStr := [230, 182, 136, 230, 129, 175, 230, 151, 160, 230, 149, 136, 58, 32]

/-- "已经加入聊天室" (server.rs, repeated-Join reply). -/
def alreadyJoinedText : RStr := [229, 183, 178, 231, 187, 143, 229, 138, 160, 229, 133, 165, 232, 129, 138, 229, 164, 169, 229, 174, 164]

/-- "服务器正在关闭" (server.rs, shutdown broadcast message). -/
def shutdownText : RStr := [230, 156, 141, 229, 138, 161, 229, 153, 168, 230, 173, 163, 229, 156, 168, 229, 133, 179, 233, 151, 173]

/-- "系统" (client.rs, system-message username). -/
def sysUserText : RStr := [231, 179, 187, 231, 187, 159]

/-- "已连接到服务器" (client.rs, connected system message). -/
def connectedSysText : RStr := [229, 183, 178, 232, 191, 158, 230, 142, 165, 229, 136, 176, 230, 156, 141, 229, 138, 161, 229, 153, 168]

/-- " 加入了聊天室" (client.rs, user-joined system message suffix). -/
def joinedSuffix : RStr := [32, 229, 138, 160, 229, 133, 165, 228, 186, 134, 232, 129, 138, 229, 164, 169, 229, 174, 164]

/-- " 离开了聊天室" (client.rs, user-left system message suffix). -/
def leftSuffix : RStr := [32, 231, 166, 187, 229, 188, 128, 228, 186, 134, 232, 129, 138, 229, 164, 169, 229, 174, 164]

/-! ## Rendering of `ProtocolError` (error.rs `#[error(...)]` templates)

`format!` interpolation renders `usize`/`u8` fields in decimal; the
decimal rendering is `natDecBytes`. -/

/-- Decimal digit bytes of `n`, most significant first, with explicit
fuel (always sufficient, since `n / 10 < n` for `n ≥ 10`). -/
def decDigitsAux : Nat → Nat → List Nat
  | 0, _ => []
  | fuel + 1, n =>
      if n < 10 then [n + 48]
      else decDigitsAux fuel (n / 10) ++ [n % 10 + 48]

/-- UTF-8 bytes of the decimal rendering of `n` (as `format!` prints it). -/
def natDecBytes (n : Nat) : RStr := decDigitsAux (n + 1) n

/-- "Username too long: " -/
def usernameTooLongA : RStr := [85, 115, 101, 114, 110, 97, 109, 101, 32, 116, 111, 111, 32, 108, 111, 110, 103, 58, 32]

/-- " chars (max: " -/
def usernameTooLongB : RStr := [32, 99, 104, 97, 114, 115, 32, 40, 109, 97, 120, 58, 32]

/-- "Message too long: " -/
def messageTooLongA : RStr := [77, 101, 115, 115, 97, 103, 101, 32, 116, 111, 111, 32, 108, 111, 110, 103, 58, 32]

/-- " bytes (max: " -/
def messageTooLongB : RStr := [32, 98, 121, 116, 101, 115, 32, 40, 109, 97, 120, 58, 32]

/-- ")" -/
def closeParen : RStr := [41]

/-- "IO error: " -/
def ioErrorText : RStr := [73, 79, 32, 101, 114, 114, 111, 114, 58, 32]

/-- "Serialization error: " -/
def serializationErrorText : RStr := [83, 101, 114, 105, 97, 108, 105, 122, 97, 116, 105, 111, 110, 32, 101, 114, 114, 111, 114, 58, 32]

/-- "Protocol version mismatch: expected " -/
def versionMismatchA : RStr := [80, 114, 111, 116, 111, 99, 111, 108, 32, 118, 101, 114, 115, 105, 111, 110, 32, 109, 105, 115, 109, 97, 116, 99, 104, 58, 32, 101, 120, 112, 101, 99, 116, 101, 100, 32]

/-- ", got " -/
def versionMismatchB : RStr := [44, 32, 103, 111, 116, 32]

/-- "Frame too large: " -/
def frameTooLargeA : RStr := [70, 114, 97, 109, 101, 32, 116, 111, 111, 32, 108, 97, 114, 103, 101, 58, 32]

/-- "Connection timeout" -/
def connectionTimeoutText : RStr := [67, 111, 110, 110, 101, 99, 116, 105, 111, 110, 32, 116, 105, 109, 101, 111, 117, 116]

/-- "Connection closed" -/
def connectionClosedText : RStr := [67, 111, 110, 110, 101, 99, 116, 105, 111, 110, 32, 99, 108, 111, 115, 101, 100]

/-- The `Display` rendering of `ProtocolError` (error.rs `#[error(...)]`
attributes).  For `Io`/`Serialization` the unmodelled inner error's text is
omitted. -/
def ProtocolError.render : ProtocolError → RStr
  | .io => ioErrorText
  | .serialization => serializationErrorText
  | .versionMismatch expected actual =>
      versionMismatchA ++ natDecBytes expected ++ versionMismatchB ++ natDecBytes actual
  | .frameTooLarge size max =>
      frameTooLargeA ++ natDecBytes size ++ messageTooLongB ++ natDecBytes max ++ closeParen
  | .connectionTimeout => connectionTimeoutText
  | .connectionClosed => connectionClosedText
  | .usernameTooLong len max =>
      usernameTooLongA ++ natDecBytes len ++ usernameTooLongB ++ natDecBytes max ++ closeParen
  | .messageTooLong len max =>
      messageTooLongA ++ natDecBytes len ++ messageTooLongB ++ natDecBytes max ++ closeParen

/-! ## bincode serialization of the message enums

`bincode::serialize` with its default configuration: little-endian,
fixed-width integers, enum variant index as `u32`, `String` as `u64`
byte length followed by the UTF-8 bytes. -/

/-- Little-endian 4-byte encoding of a `u32`. -/
def u32le (n : Nat) : List Nat :=
  [n % 256, n / 256 % 256, n / 65536 % 256, n / 16777216 % 256]

/-- Little-endian 8-byte encoding of a `u64`. -/
def u64le (n : Nat) : List Nat :=
  [n % 256, n / 256 % 256, n / 65536 % 256, n / 16777216 % 256,
   n / 4294967296 % 256, n / 1099511627776 % 256,
   n / 281474976710656 % 256, n / 72057594037927936 % 256]

/-- Big-endian 4-byte encoding of a `u32` (`u32::to_be_bytes`). -/
def u32be (n : Nat) : List Nat :=
  [n / 16777216 % 256, n / 65536 % 256, n / 256 % 256, n % 256]

/-- bincode encoding of a Rust `String`: `u64` byte length, then bytes. -/
def serString (s : RStr) : List Nat := u64le s.length ++ s

/-- bincode serialization of `ClientMessage` (variant tags 0..3 in
declaration order). -/
def serClientMessage : ClientMessage → List Nat
  | .join username => u32le 0 ++ serString username
  | .chat content => u32le 1 ++ serString content
  | .leave => u32le 2
  | .ping => u32le 3

/-- bincode serialization of `ServerMessage` (variant tags 0..6 in
declaration order). -/
def serServerMessage : ServerMessage → List Nat
  | .welcome user_id => u32le 0 ++ u32le user_id
  | .userJoined username => u32le 1 ++ serString username
  | .userLeft username => u32le 2 ++ serString username
  | .chatBroadcast username content timestamp =>
      u32le 3 ++ serString username ++ serString content ++ u64le timestamp
  | .error message => u32le 4 ++ serString message
  | .pong => u32le 5
  | .shutdown message => u32le 6 ++ serString message

/-- Read a little-endian `u32` from the head of the stream. -/
def readU32le : List Nat → Option (Nat × List Nat)
  | b0 :: b1 :: b2 :: b3 :: rest =>
      some (b0 + 256 * (b1 + 256 * (b2 + 256 * b3)), rest)
  | _ => none

/-- Read a little-endian `u64` from the head of the stream. -/
def readU64le : List Nat → Option (Nat × List Nat)
  | b0 :: b1 :: b2 :: b3 :: b4 :: b5 :: b6 :: b7 :: rest =>
      some (b0 + 256 * (b1 + 256 * (b2 + 256 * (b3 + 256 * (b4 + 256 * (b5 + 256 * (b6 + 256 * b7)))))), rest)
  | _ => none

/-- Read exactly `n` bytes from the head of the stream. -/
def readBytes (n : Nat) (l : List Nat) : Option (List Nat × List Nat) :=
  if n ≤ l.length then some (l.take n, l.drop n) else none

/-- bincode decoding of a Rust `String`. -/
def readString (l : List Nat) : Option (RStr × List Nat) :=
  (readU64le l).bind fun p => readBytes p.1 p.2

/-- bincode deserialization of `ClientMessage`: variant tag, then the
variant's fields. -/
def deClientMessage (l : List Nat) : Option (ClientMessage × List Nat) :=
  match readU32le l with
  | none => none
  | some (tag, r) =>
      if tag = 0 then (readString r).map fun p => (.join p.1, p.2)
      else if tag = 1 then (readString r).map fun p => (.chat p.1, p.2)
      else if tag = 2 then some (.leave, r)
      else if tag = 3 then some (.ping, r)
      else none

/-- bincode deserialization of `ServerMessage`: variant tag, then the
variant's fields. -/
def deServerMessage (l : List Nat) : Option (ServerMessage × List Nat) :=
  match readU32le l with
  | none => none
  | some (tag, r) =>
      if tag = 0 then (readU32le r).map fun p => (.welcome p.1, p.2)
      else if tag = 1 then (readString r).map fun p => (.userJoined p.1, p.2)
      else if tag = 2 then (readString r).map fun p => (.userLeft p.1, p.2)
      else if tag = 3 then
        (readString r).bind fun pu =>
        (readString pu.2).bind fun pc =>
        (readU64le pc.2).map fun pt => (.chatBroadcast pu.1 pc.1 pt.1, pt.2)
      else if tag = 4 then (readString r).map fun p => (.error p.1, p.2)
      else if tag = 5 then some (.pong, r)
      else if tag = 6 then (readString r).map fun p => (.shutdown p.1, p.2)
      else none

/-! ## Frame codec (protocol/src/codec.rs)

A frame is `[version:1][length:4 big-endian][payload:length bytes]`.
The writer is modelled as a function from the message and the bytes
already written to the underlying stream to the new stream contents and
the call's result; the reader as a function from the incoming byte
stream to the decoded message and the remaining stream. -/

/-- `FrameWriter::write_frame` (codec.rs lines 108-132): serialize, fail
with `FrameTooLarge` if the payload exceeds `MAX_FRAME_SIZE` (writing
nothing), otherwise append header then payload to the stream. -/
def writeFrame (ser : α → List Nat) (m : α) (written : List Nat) :
    List Nat × Except ProtocolError Unit :=
  if (ser m).length > MAX_FRAME_SIZE then
    (written, .error (.frameTooLarge (ser m).length MAX_FRAME_SIZE))
  else
    (written ++ PROTOCOL_VERSION :: (u32be (ser m).length ++ ser m), .ok ())

/-- The bytes `write_frame` leaves on a fresh stream. -/
def writeFrameBytes (ser : α → List Nat) (m : α) : List Nat :=
  (writeFrame ser m []).1

/-- `FrameReader::read_frame` (codec.rs lines 36-88): read the 5 header
bytes (a short read is `ConnectionClosed`), reject a version mismatch,
parse the big-endian length and reject it if over `MAX_FRAME_SIZE`, read
exactly `length` payload bytes, deserialize. -/
def readFrame (de : List Nat → Option (α × List Nat)) :
    List Nat → Except ProtocolError (α × List Nat)
  | v :: b1 :: b2 :: b3 :: b4 :: rest =>
      if v ≠ PROTOCOL_VERSION then
        .error (.versionMismatch PROTOCOL_VERSION v)
      else if b1 * 16777216 + b2 * 65536 + b3 * 256 + b4 > MAX_FRAME_SIZE then
        .error (.frameTooLarge (b1 * 16777216 + b2 * 65536 + b3 * 256 + b4) MAX_FRAME_SIZE)
      else
        match readBytes (b1 * 16777216 + b2 * 65536 + b3 * 256 + b4) rest with
        | some (payload, rest') =>
            match de payload with
            | some (m, _) => .ok (m, rest')
            | none => .error .serialization
        | none => .error .connectionClosed
  | _ => .error .connectionClosed

/-! ## Round-trip lemmas for the codec -/

@[simp] theorem u32le_length (n : Nat) : (u32le n).length = 4 := rfl

@[simp] theorem u64le_length (n : Nat) : (u64le n).length = 8 := rfl

@[simp] theorem u32be_length (n : Nat) : (u32be n).length = 4 := rfl

@[simp] theorem serString_length (s : RStr) : (serString s).length = 8 + s.length := by
  simp [serString]

theorem readBytes_append (xs r : List Nat) : readBytes xs.length (xs ++ r) = some (xs, r) := by
  unfold readBytes
  rw [if_pos (by simp)]
  simp

theorem readBytes_all (xs : List Nat) : readBytes xs.length xs = some (xs, []) := by
  simpa using readBytes_append xs []

theorem readU32le_u32le (n : Nat) (h : n < 4294967296) (r : List Nat) :
    readU32le (u32le n ++ r) = some (n, r) := by
  simp only [u32le, List.cons_append, List.nil_append, readU32le]
  refine congrArg some (Prod.ext ?_ rfl)
  show n % 256 + 256 * (n / 256 % 256 + 256 * (n / 65536 % 256 + 256 * (n / 16777216 % 256))) = n
  omega

theorem readU64le_u64le (n : Nat) (h : n < 18446744073709551616) (r : List Nat) :
    readU64le (u64le n ++ r) = some (n, r) := by
  simp only [u64le, List.cons_append, List.nil_append, readU64le]
  refine congrArg some (Prod.ext ?_ rfl)
  show n % 256 + 256 * (n / 256 % 256 + 256 * (n / 65536 % 256 + 256 * (n / 16777216 % 256 +
      256 * (n / 4294967296 % 256 + 256 * (n / 1099511627776 % 256 +
      256 * (n / 281474976710656 % 256 + 256 * (n / 72057594037927936 % 256))))))) = n
  omega

theorem readString_serString (s : RStr) (h : s.length < 18446744073709551616)
    (r : List Nat) : readString (serString s ++ r) = some (s, r) := by
  unfold readString serString
  rw [List.append_assoc, readU64le_u64le s.length h]
  simpa using readBytes_append s r

theorem readString_all (s : RStr) (h : s.length < 18446744073709551616) :
    readString (serString s) = some (s, []) := by
  simpa using readString_serString s h []

theorem be_recombine (L : Nat) (h : L < 4294967296) :
    L / 16777216 % 256 * 16777216 + L / 65536 % 256 * 65536 + L / 256 % 256 * 256 + L % 256 = L := by
  omega

/-- If the serialized payload deserializes back to the message and fits in
a frame, writing then reading the frame returns the message and consumes
the whole stream. -/
theorem readFrame_writeFrame (ser : α → List Nat) (de : List Nat → Option (α × List Nat))
    (m : α) (hde : de (ser m) = some (m, []))
    (hlen : (ser m).length ≤ MAX_FRAME_SIZE) :
    readFrame de (writeFrameBytes ser m) = .ok (m, []) := by
  have hgt : ¬ (ser m).length > MAX_FRAME_SIZE := Nat.not_lt.mpr hlen
  have h32 : (ser m).length < 4294967296 := by
    have h8192 : (ser m).length ≤ 8192 := hlen
    omega
  unfold writeFrameBytes writeFrame
  rw [if_neg hgt]
  simp only [List.nil_append, u32be, List.cons_append, List.nil_append]
  simp only [readFrame, PROTOCOL_VERSION]
  rw [if_neg (show ¬ (1 : Nat) ≠ 1 by simp)]
  rw [be_recombine _ h32, if_neg hgt, readBytes_all]
  simp [hde]

theorem readU32le_all (n : Nat) (h : n < 4294967296) :
    readU32le (u32le n) = some (n, []) := by
  simpa using readU32le_u32le n h []

theorem readU64le_all (n : Nat) (h : n < 18446744073709551616) :
    readU64le (u64le n) = some (n, []) := by
  simpa using readU64le_u64le n h []

/-- A serialized `ClientMessage` payload deserializes back to the message. -/
theorem deClientMessage_ser (m : ClientMessage)
    (h : (serClientMessage m).length ≤ MAX_FRAME_SIZE) :
    deClientMessage (serClientMessage m) = some (m, []) := by
  cases m with
  | join username =>
      have hu : username.length < 18446744073709551616 := by
        have h2 : 4 + (8 + username.length) ≤ 8192 := by
          simpa [serClientMessage] using h
        omega
      unfold serClientMessage deClientMessage
      rw [readU32le_u32le 0 (by norm_num)]
      simp [readString_all username hu]
  | chat content =>
      have hc : content.length < 18446744073709551616 := by
        have h2 : 4 + (8 + content.length) ≤ 8192 := by
          simpa [serClientMessage] using h
        omega
      unfold serClientMessage deClientMessage
      rw [readU32le_u32le 1 (by norm_num)]
      simp [readString_all content hc]
  | leave =>
      unfold serClientMessage deClientMessage
      rw [readU32le_all 2 (by norm_num)]
      simp
  | ping =>
      unfold serClientMessage deClientMessage
      rw [readU32le_all 3 (by norm_num)]
      simp

/-- The integer-range side conditions that the Rust types (`u32` user
ids, `u64` timestamps) guarantee but the `Nat` embedding does not. -/
def ServerMessage.WF : ServerMessage → Prop
  | .welcome user_id => user_id < 4294967296
  | .chatBroadcast _ _ timestamp => timestamp < 18446744073709551616
  | _ => True

/-- A serialized `ServerMessage` payload deserializes back to the message. -/
theorem deServerMessage_ser (m : ServerMessage) (hwf : m.WF)
    (h : (serServerMessage m).length ≤ MAX_FRAME_SIZE) :
    deServerMessage (serServerMessage m) = some (m, []) := by
  cases m with
  | welcome user_id =>
      unfold serServerMessage deServerMessage
      rw [readU32le_u32le 0 (by norm_num)]
      simp [readU32le_all user_id hwf]
  | userJoined username =>
      have hu : username.length < 18446744073709551616 := by
        have h2 : 4 + (8 + username.length) ≤ 8192 := by
          simpa [serServerMessage] using h
        omega
      unfold serServerMessage deServerMessage
      rw [readU32le_u32le 1 (by norm_num)]
      simp [readString_all username hu]
  | userLeft username =>
      have hu : username.length < 18446744073709551616 := by
        have h2 : 4 + (8 + username.length) ≤ 8192 := by
          simpa [serServerMessage] using h
        omega
      unfold serServerMessage deServerMessage
      rw [readU32le_u32le 2 (by norm_num)]
      simp [readString_all username hu]
  | chatBroadcast username content timestamp =>
      have hlen : 4 + (8 + username.length + (8 + content.length + 8)) ≤ 8192 := by
        simpa [serServerMessage] using h
      have hu : username.length < 18446744073709551616 := by omega
      have hc : content.length < 18446744073709551616 := by omega
      have ht : timestamp < 18446744073709551616 := hwf
      unfold serServerMessage deServerMessage
      simp only [List.append_assoc]
      rw [readU32le_u32le 3 (by norm_num)]
      simp [readString_serString username hu, readString_serString content hc,
        readU64le_all timestamp ht]
  | error message =>
      have hu : message.length < 18446744073709551616 := by
        have h2 : 4 + (8 + message.length) ≤ 8192 := by
          simpa [serServerMessage] using h
        omega
      unfold serServerMessage deServerMessage
      rw [readU32le_u32le 4 (by norm_num)]
      simp [readString_all message hu]
  | pong =>
      unfold serServerMessage deServerMessage
      rw [readU32le_all 5 (by norm_num)]
      simp
  | shutdown message =>
      have hu : message.length < 18446744073709551616 := by
        have h2 : 4 + (8 + message.length) ≤ 8192 := by
          simpa [serServerMessage] using h
        omega
      unfold serServerMessage deServerMessage
      rw [readU32le_u32le 6 (by norm_num)]
      simp [readString_all message hu]

theorem serClientMessage_chat_length (content : RStr) :
    (serClientMessage (.chat content)).length = 12 + content.length := by
  simp [serClientMessage]
  omega

/-- C3: For every valid protocol message m (client or server variant)
whose serialized payload is at most MAX_FRAME_SIZE bytes, encoding m with
`FrameWriter::write_frame` and then decoding the produced bytes with
`FrameReader::read_frame` yields exactly m (consuming the whole stream).
The `WF` side condition on server messages is the `u32`/`u64` field range
the Rust types impose. -/
theorem c3_frame_roundtrip :
    (∀ m : ClientMessage, (serClientMessage m).length ≤ MAX_FRAME_SIZE →
      readFrame deClientMessage (writeFrameBytes serClientMessage m) = .ok (m, [])) ∧
    (∀ m : ServerMessage, m.WF → (serServerMessage m).length ≤ MAX_FRAME_SIZE →
      readFrame deServerMessage (writeFrameBytes serServerMessage m) = .ok (m, [])) :=
  ⟨fun m h => readFrame_writeFrame _ _ m (deClientMessage_ser m h) h,
   fun m hwf h => readFrame_writeFrame _ _ m (deServerMessage_ser m hwf h) h⟩

/-- Witness for C3: the round trip evaluated on `Join{"alice"}` and on
`Welcome{user_id: 1}`. -/
theorem c3_frame_roundtrip_witness :
    readFrame deClientMessage
      (writeFrameBytes serClientMessage (.join [97, 108, 105, 99, 101])) =
      .ok (.join [97, 108, 105, 99, 101], []) ∧
    readFrame deServerMessage (writeFrameBytes serServerMessage (.welcome 1)) =
      .ok (.welcome 1, []) :=
  ⟨c3_frame_roundtrip.1 _ (by decide),
   c3_frame_roundtrip.2 _ (by simp [ServerMessage.WF]) (by decide)⟩

/-- C4: For every message whose serialized payload exceeds MAX_FRAME_SIZE
bytes, `FrameWriter::write_frame` returns a `FrameTooLarge` error and
writes no bytes to the underlying writer (the output stream is exactly as
it was before the call). -/
theorem c4_write_frame_too_large (ser : α → List Nat) (m : α) (written : List Nat)
    (h : (ser m).length > MAX_FRAME_SIZE) :
    writeFrame ser m written =
      (written, .error (.frameTooLarge (ser m).length MAX_FRAME_SIZE)) := by
  unfold writeFrame
  rw [if_pos h]

/-- Witness for C4: a Chat whose payload is 8193 bytes (one over the
limit), attempted on a stream already holding one byte: the stream is
unchanged and the error is returned. -/
theorem c4_write_frame_too_large_witness :
    writeFrame serClientMessage (.chat (List.replicate 8181 120)) [7] =
      ([7], .error (.frameTooLarge
        (serClientMessage (.chat (List.replicate 8181 120))).length MAX_FRAME_SIZE)) :=
  c4_write_frame_too_large serClientMessage _ [7]
    (by rw [serClientMessage_chat_length, List.length_replicate]; norm_num [MAX_FRAME_SIZE])

/-! ## Association-list model of Rust's HashMap

`HashMap<K, V>` is modelled as an association list with at most one live
binding per key: `insertA` replaces any existing binding, `eraseKey`
(`HashMap::remove`) drops all bindings of the key, `lookupA`
(`HashMap::get` / `contains_key`) finds the first. -/

/-- `HashMap::get` -/
def lookupA [DecidableEq κ] (k : κ) : List (κ × α) → Option α
  | [] => none
  | (k', v) :: t => if k' = k then some v else lookupA k t

/-- `HashMap::remove` (the removed value is recovered via `lookupA`). -/
def eraseKey [DecidableEq κ] (k : κ) : List (κ × α) → List (κ × α)
  | [] => []
  | (k', v) :: t => if k' = k then eraseKey k t else (k', v) :: eraseKey k t

/-- `HashMap::insert` (replacing any previous binding of the key). -/
def insertA [DecidableEq κ] (k : κ) (v : α) (l : List (κ × α)) : List (κ × α) :=
  (k, v) :: eraseKey k l

theorem lookupA_eraseKey_self [DecidableEq κ] (k : κ) (l : List (κ × α)) :
    lookupA k (eraseKey k l) = none := by
  induction l with
  | nil => rfl
  | cons p t ih =>
      obtain ⟨k', v⟩ := p
      by_cases h : k' = k
      · simpa [eraseKey, h] using ih
      · simpa [eraseKey, lookupA, h] using ih

theorem lookupA_insertA_self [DecidableEq κ] (k : κ) (v : α) (l : List (κ × α)) :
    lookupA k (insertA k v l) = some v := by
  simp [insertA, lookupA]

/-! ## Shared registry (chat-server/src/server.rs, `SharedState`) -/

/-- `User` (server.rs): the per-user record stored in the registry. -/
structure User where
  username : RStr
deriving DecidableEq, Repr

/-- `SharedState` (server.rs lines 39-48): the id→user index, the
username→id mirror index, the live connection counter (`AtomicU32`) and
the monotonic id generator (`AtomicU32`). -/
structure SharedState where
  users : List (Nat × User)
  usernames : List (RStr × Nat)
  connection_count : Nat
  next_user_id : Nat
deriving DecidableEq, Repr

/-- `SharedState::new`. -/
def SharedState.new : SharedState :=
  { users := [], usernames := [], connection_count := 0, next_user_id := 1 }

/-- `SharedState::try_add_connection` (server.rs lines 61-75).  The
compare-exchange retry loop, observed atomically: if the counter has
reached `MAX_CONNECTIONS` return `false` without touching it, otherwise
increment it and return `true`. -/
def SharedState.try_add_connection (s : SharedState) : Bool × SharedState :=
  if s.connection_count ≥ MAX_CONNECTIONS then (false, s)
  else (true, { s with connection_count := s.connection_count + 1 })

/-- `SharedState::remove_connection` (server.rs lines 78-80):
`fetch_sub(1)` on a `u32`, which wraps at zero. -/
def SharedState.remove_connection (s : SharedState) : SharedState :=
  { s with connection_count := (s.connection_count + 4294967295) % 4294967296 }

/-- `SharedState::add_user` (server.rs lines 83-96): under the exclusive
username-index lock, fail if the name is taken; otherwise allocate the
next id (`fetch_add(1)` on a `u32`, hence the `% 2^32`) and insert into
both indexes. -/
def SharedState.add_user (s : SharedState) (username : RStr) : SharedState × Option Nat :=
  if (lookupA username s.usernames).isSome then (s, none)
  else
    ({ s with usernames := insertA username s.next_user_id s.usernames,
              users := insertA s.next_user_id ⟨username⟩ s.users,
              next_user_id := (s.next_user_id + 1) % 4294967296 },
     some s.next_user_id)

/-- `SharedState::remove_user` (server.rs lines 99-109): if the id is
registered, remove it from the id index and its username from the mirror
index and return the username; otherwise return nothing. -/
def SharedState.remove_user (s : SharedState) (id : Nat) : SharedState × Option RStr :=
  match lookupA id s.users with
  | some user =>
      ({ s with users := eraseKey id s.users,
                usernames := eraseKey user.username s.usernames },
       some user.username)
  | none => (s, none)

/-- C5: `try_add_connection` returns true and increases the live
connection counter by exactly one when the counter is strictly below
MAX_CONNECTIONS, and returns false leaving the counter unchanged
otherwise; consequently a counter at most MAX_CONNECTIONS stays at most
MAX_CONNECTIONS, and a rejected attempt is not counted. -/
theorem c5_try_add_connection (s : SharedState) :
    (s.connection_count < MAX_CONNECTIONS →
      (s.try_add_connection.1 = true ∧
       s.try_add_connection.2.connection_count = s.connection_count + 1)) ∧
    (s.connection_count ≥ MAX_CONNECTIONS →
      (s.try_add_connection.1 = false ∧ s.try_add_connection.2 = s)) ∧
    (s.connection_count ≤ MAX_CONNECTIONS →
      s.try_add_connection.2.connection_count ≤ MAX_CONNECTIONS) := by
  unfold SharedState.try_add_connection
  refine ⟨fun h => ?_, fun h => ?_, fun h => ?_⟩
  · rw [if_neg (by omega)]
    exact ⟨rfl, rfl⟩
  · rw [if_pos h]
    exact ⟨rfl, rfl⟩
  · by_cases hc : s.connection_count ≥ MAX_CONNECTIONS
    · rw [if_pos hc]
      exact h
    · rw [if_neg hc]
      simp only []
      omega

/-- Witness for C5: a counter at 99 admits (and reaches 100), a counter
at 100 rejects unchanged and stays within the limit. -/
theorem c5_try_add_connection_witness :
    ((⟨[], [], 99, 1⟩ : SharedState).try_add_connection.1 = true ∧
     (⟨[], [], 99, 1⟩ : SharedState).try_add_connection.2.connection_count = 99 + 1) ∧
    ((⟨[], [], 100, 1⟩ : SharedState).try_add_connection.1 = false ∧
     (⟨[], [], 100, 1⟩ : SharedState).try_add_connection.2 = ⟨[], [], 100, 1⟩) ∧
    (⟨[], [], 100, 1⟩ : SharedState).try_add_connection.2.connection_count ≤ MAX_CONNECTIONS :=
  ⟨(c5_try_add_connection _).1 (by decide),
   (c5_try_add_connection _).2.1 (by decide),
   (c5_try_add_connection _).2.2 (by decide)⟩

/-- C6: if the username is already present in the username index,
`add_user` returns None and leaves the registry (in particular the
next-user-id generator) unchanged; if it is absent, `add_user` returns
the next id and afterwards both indexes hold the new (id, username)
binding and the generator has advanced. -/
theorem c6_add_user (s : SharedState) (username : RStr) :
    ((lookupA username s.usernames).isSome → s.add_user username = (s, none)) ∧
    (lookupA username s.usernames = none →
      ((s.add_user username).2 = some s.next_user_id ∧
       lookupA username (s.add_user username).1.usernames = some s.next_user_id ∧
       lookupA s.next_user_id (s.add_user username).1.users = some ⟨username⟩ ∧
       (s.add_user username).1.next_user_id = (s.next_user_id + 1) % 4294967296 ∧
       (s.add_user username).1.connection_count = s.connection_count)) := by
  constructor
  · intro h
    unfold SharedState.add_user
    rw [if_pos h]
  · intro h
    have h' : ¬ (lookupA username s.usernames).isSome := by simp [h]
    unfold SharedState.add_user
    rw [if_neg h']
    exact ⟨rfl, lookupA_insertA_self .., lookupA_insertA_self .., rfl, rfl⟩

/-- Witness for C6: on a registry where "alice" (id 1) is registered,
adding "alice" again is rejected without consuming an id; on the fresh
registry, adding "alice" yields id 1 and registers it in both indexes. -/
theorem c6_add_user_witness :
    ((⟨[(1, ⟨[97, 108, 105, 99, 101]⟩)], [([97, 108, 105, 99, 101], 1)], 0, 2⟩ :
        SharedState).add_user [97, 108, 105, 99, 101] =
      (⟨[(1, ⟨[97, 108, 105, 99, 101]⟩)], [([97, 108, 105, 99, 101], 1)], 0, 2⟩, none)) ∧
    ((SharedState.new.add_user [97, 108, 105, 99, 101]).2 = some SharedState.new.next_user_id ∧
     lookupA [97, 108, 105, 99, 101]
       (SharedState.new.add_user [97, 108, 105, 99, 101]).1.usernames =
       some SharedState.new.next_user_id ∧
     lookupA SharedState.new.next_user_id
       (SharedState.new.add_user [97, 108, 105, 99, 101]).1.users =
       some ⟨[97, 108, 105, 99, 101]⟩ ∧
     (SharedState.new.add_user [97, 108, 105, 99, 101]).1.next_user_id =
       (SharedState.new.next_user_id + 1) % 4294967296 ∧
     (SharedState.new.add_user [97, 108, 105, 99, 101]).1.connection_count =
       SharedState.new.connection_count) :=
  ⟨(c6_add_user _ _).1 (by decide), (c6_add_user _ _).2 (by decide)⟩

/-! ## Broadcast fanout events and session teardown (server.rs) -/

/-- `BroadcastMsg` (server.rs lines 16-30). -/
inductive BroadcastMsg where
  | chat (username content : RStr) (timestamp : Nat)
  | userJoined (username : RStr)
  | userLeft (username : RStr)
  | shutdown (message : RStr)
deriving DecidableEq, Repr

/-- The session teardown at the end of `handle_client` (server.rs lines
417-420): deregister the user; if removal actually removed a live user,
publish `UserLeft`. -/
def teardown (s : SharedState) (user_id : Nat) : SharedState × List BroadcastMsg :=
  match s.remove_user user_id with
  | (s', some username) => (s', [.userLeft username])
  | (s', none) => (s', [])

/-- C7: a first `remove_user` call with a registered user_id removes that
user from both registry indexes and returns Some(username); a second call
with the same id returns None and changes nothing, so teardown publishes
`UserLeft` at most once per removed user (none on the second round). -/
theorem c7_remove_user_idempotent (s s' : SharedState) (id : Nat) (name : RStr)
    (h : s.remove_user id = (s', some name)) :
    lookupA id s'.users = none ∧
    lookupA name s'.usernames = none ∧
    s'.remove_user id = (s', none) ∧
    teardown s' id = (s', []) := by
  unfold SharedState.remove_user at h
  cases hl : lookupA id s.users with
  | none =>
      rw [hl] at h
      simp only [Prod.mk.injEq] at h
      exact absurd h.2 (by simp)
  | some user =>
      rw [hl] at h
      simp only [Prod.mk.injEq, Option.some.injEq] at h
      obtain ⟨hs, hn⟩ := h
      have husers : lookupA id s'.users = none := by
        rw [← hs]
        exact lookupA_eraseKey_self ..
      have hnames : lookupA name s'.usernames = none := by
        rw [← hs, ← hn]
        exact lookupA_eraseKey_self ..
      have hsecond : s'.remove_user id = (s', none) := by
        unfold SharedState.remove_user
        rw [husers]
      refine ⟨husers, hnames, hsecond, ?_⟩
      unfold teardown
      rw [hsecond]

/-- Witness for C7: removing user 1 ("alice") from a registry holding it,
then removing id 1 again: the second removal is a no-op and the second
teardown publishes nothing. -/
theorem c7_remove_user_idempotent_witness :
    lookupA 1 (⟨[], [], 1, 2⟩ : SharedState).users = none ∧
    lookupA [97, 108, 105, 99, 101] (⟨[], [], 1, 2⟩ : SharedState).usernames = none ∧
    (⟨[], [], 1, 2⟩ : SharedState).remove_user 1 = (⟨[], [], 1, 2⟩, none) ∧
    teardown ⟨[], [], 1, 2⟩ 1 = (⟨[], [], 1, 2⟩, []) :=
  c7_remove_user_idempotent
    ⟨[(1, ⟨[97, 108, 105, 99, 101]⟩)], [([97, 108, 105, 99, 101], 1)], 1, 2⟩
    ⟨[], [], 1, 2⟩ 1 [97, 108, 105, 99, 101] (by decide)

/-! ## Join phase of `handle_client` (server.rs lines 242-302)

The join phase is a pure function of the registry state and of what the
`timeout(JOIN_TIMEOUT, conn.recv())` wait produced: a message, a receive
error, or timeout expiry. -/

/-- What the join-phase wait produced. -/
inductive JoinRecv where
  | msg (m : ClientMessage)
  | recvErr
  | timedOut
deriving DecidableEq, Repr

/-- Result of the join phase: the registry afterwards, the direct replies
sent on the connection, the events published to the fanout, and the
established session (user_id, username), if any. -/
structure JoinOutcome where
  state : SharedState
  replies : List ServerMessage
  broadcasts : List BroadcastMsg
  session : Option (Nat × RStr)
deriving DecidableEq, Repr

/-- The join phase of `handle_client` (server.rs lines 242-302): a `Join`
is re-validated (`Error` reply on failure), then `add_user` is attempted
(`Error{"用户名已存在"}` reply on a duplicate name); on success the reply
is `Welcome { user_id }` and `UserJoined` is published.  Any other first
message gets an `Error` reply; a receive error ends the session silently;
timeout expiry gets an `Error{"加入超时"}` reply.  In all non-success
cases no session is established. -/
def joinPhase (s : SharedState) (r : JoinRecv) : JoinOutcome :=
  match r with
  | .msg (.join username) =>
      match (ClientMessage.join username).validate with
      | .error e => ⟨s, [.error (invalidUsernameHead ++ e.render)], [], none⟩
      | .ok _ =>
          match s.add_user username with
          | (s', some id) => ⟨s', [.welcome id], [.userJoined username], some (id, username)⟩
          | (s', none) => ⟨s', [.error usernameExistsText], [], none⟩
  | .msg _ => ⟨s, [.error notJoinFirstText], [], none⟩
  | .recvErr => ⟨s, [], [], none⟩
  | .timedOut => ⟨s, [.error joinTimeoutText], [], none⟩

/-- C1 (evaluated at the failing input): on the first valid, unique
`Join{"alice"}`, the server registers alice under id 1 but the reply is
`Welcome { user_id := 1 }` — the `Welcome` variant of the wire protocol
(message.rs) carries no `online_users` field at all, so no snapshot of
the registered usernames is (or can be) sent with it. -/
theorem c1_welcome_no_online_users :
    joinPhase SharedState.new (.msg (.join [97, 108, 105, 99, 101])) =
      ⟨⟨[(1, ⟨[97, 108, 105, 99, 101]⟩)], [([97, 108, 105, 99, 101], 1)], 0, 2⟩,
       [.welcome 1], [.userJoined [97, 108, 105, 99, 101]],
       some (1, [97, 108, 105, 99, 101])⟩ := by
  decide

/-! ## Active-loop message handling (server.rs lines 308-366) -/

/-- Handling of one inbound client message by an Active session (server.rs
lines 313-351): `Chat` is validated (an invalid chat gets an `Error` reply
and nothing is broadcast) and otherwise republished as a `Chat` event with
the server-assigned timestamp; `Ping` is answered with `Pong`; `Leave`
ends the loop; a repeated `Join` gets an `Error` reply.  The returned
`Bool` is whether the session loop continues (stays Active). -/
def handleActiveMsg (username : RStr) (now : Nat) (m : ClientMessage) :
    List ServerMessage × List BroadcastMsg × Bool :=
  match m with
  | .chat content =>
      match (ClientMessage.chat content).validate with
      | .error e => ([.error (msgInvalidHead ++ e.render)], [], true)
      | .ok _ => ([], [.chat username content now], true)
  | .ping => ([.pong], [], true)
  | .leave => ([], [], false)
  | .join _ => ([.error alreadyJoinedText], [], true)

/-- C8: when an Active session receives `Chat{content}` with content
longer than MAX_MESSAGE_LEN (4096), the server replies with an `Error`
message, does not broadcast the chat, and the session loop continues
(the session stays Active with the connection open). -/
theorem c8_oversize_chat (username : RStr) (now : Nat) (content : RStr)
    (h : content.length > MAX_MESSAGE_LEN) :
    handleActiveMsg username now (.chat content) =
      ([.error (msgInvalidHead ++
          (ProtocolError.messageTooLong content.length MAX_MESSAGE_LEN).render)],
       [], true) := by
  simp only [handleActiveMsg, ClientMessage.validate]
  rw [if_pos h]

/-- Witness for C8: a 5000-byte chat content (the spec's `"x"*5000`
scenario) is rejected with an `Error` reply, no broadcast, session
continuing. -/
theorem c8_oversize_chat_witness :
    handleActiveMsg [97, 108, 105, 99, 101] 12345
        (.chat (List.replicate 5000 120)) =
      ([.error (msgInvalidHead ++
          (ProtocolError.messageTooLong (List.replicate 5000 120).length
            MAX_MESSAGE_LEN).render)],
       [], true) :=
  c8_oversize_chat [97, 108, 105, 99, 101] 12345 (List.replicate 5000 120)
    (by rw [List.length_replicate]; norm_num [MAX_MESSAGE_LEN])

/-! ## Session state machine (server.rs `handle_client` + run/shutdown)

`handle_client` is, per session, a sequence of waits: the join phase
awaits only `timeout(JOIN_TIMEOUT, conn.recv())` (server.rs line 243),
while the Active loop `select!`s over the heartbeat-bounded receive, the
fanout receiver and the shutdown watch channel (server.rs lines 308-414).
`sessionStep` gives the session's reaction to one wakeup event in each
phase; an event whose future is not being awaited in the current phase
(e.g. the shutdown watch signal during the join wait) leaves the session
unchanged. -/

/-- Lifecycle phase of one server-side session. -/
inductive SessionPhase where
  | awaitingJoin
  | active (user_id : Nat) (username : RStr)
  | closed
deriving DecidableEq, Repr

/-- One wakeup event for a session task. -/
inductive SessionEvent where
  | clientMsg (m : ClientMessage)
  | joinTimeout
  | recvError
  | heartbeatTimeout
  | fanout (b : BroadcastMsg)
  | shutdownSignal
deriving DecidableEq, Repr

/-- Result of one session step. -/
structure StepResult where
  state : SharedState
  phase : SessionPhase
  replies : List ServerMessage
  broadcasts : List BroadcastMsg
deriving DecidableEq, Repr

/-- The verbatim rewrite of a fanout event as a `ServerMessage`
(server.rs lines 373-386). -/
def fanoutToServerMessage : BroadcastMsg → ServerMessage
  | .chat username content timestamp => .chatBroadcast username content timestamp
  | .userJoined username => .userJoined username
  | .userLeft username => .userLeft username
  | .shutdown message => .shutdown message

/-- One step of `handle_client`, by phase and wakeup event.  In
`awaitingJoin` only a client message, a receive error or the join timeout
are awaited; the fanout receiver and the shutdown watch channel are not
polled there, so those events leave the session where it is.  In `active`
all three `select!` arms are live. -/
def sessionStep (s : SharedState) (ph : SessionPhase) (ev : SessionEvent) (now : Nat) :
    StepResult :=
  match ph, ev with
  | .awaitingJoin, .clientMsg m =>
      let o := joinPhase s (.msg m)
      ⟨o.state,
       match o.session with
       | some (id, username) => .active id username
       | none => .closed,
       o.replies, o.broadcasts⟩
  | .awaitingJoin, .joinTimeout =>
      let o := joinPhase s .timedOut
      ⟨o.state, .closed, o.replies, o.broadcasts⟩
  | .awaitingJoin, .recvError =>
      let o := joinPhase s .recvErr
      ⟨o.state, .closed, o.replies, o.broadcasts⟩
  | .awaitingJoin, _ => ⟨s, .awaitingJoin, [], []⟩
  | .active id username, .clientMsg m =>
      match handleActiveMsg username now m with
      | (replies, bcasts, true) => ⟨s, .active id username, replies, bcasts⟩
      | (replies, bcasts, false) =>
          ⟨(teardown s id).1, .closed, replies, bcasts ++ (teardown s id).2⟩
  | .active id _, .heartbeatTimeout =>
      ⟨(teardown s id).1, .closed, [], (teardown s id).2⟩
  | .active id _, .recvError =>
      ⟨(teardown s id).1, .closed, [], (teardown s id).2⟩
  | .active id username, .fanout b =>
      match b with
      | .shutdown message =>
          ⟨(teardown s id).1, .closed, [.shutdown message], (teardown s id).2⟩
      | b => ⟨s, .active id username, [fanoutToServerMessage b], []⟩
  | .active id _, .shutdownSignal =>
      ⟨(teardown s id).1, .closed, [], (teardown s id).2⟩
  | .active id username, .joinTimeout => ⟨s, .active id username, [], []⟩
  | .closed, _ => ⟨s, .closed, [], []⟩

/-- Counterexample to C9: a session in `AwaitingJoin` that receives the
shutdown signal stays in `AwaitingJoin` with no output — it is not
cancelled into teardown, because the join wait (server.rs line 243)
awaits only `timeout(JOIN_TIMEOUT, conn.recv())` and never polls the
shutdown channel. -/
theorem c9_awaiting_join_not_cancelled :
    sessionStep SharedState.new .awaitingJoin .shutdownSignal 0 =
      ⟨SharedState.new, .awaitingJoin, [], []⟩ ∧
    SessionPhase.awaitingJoin ≠ SessionPhase.closed := by
  decide

/-- C9 as amended: on a termination request a session still in
`AwaitingJoin` is not signaled at all (the shutdown watch channel is
polled only by the Active loop); its pending join wait continues until
the join timeout (or a client message), and the timeout then leads to
teardown; an Active session, by contrast, does observe the shutdown
signal and closes. -/
theorem c9_awaiting_join_amended (s : SharedState) (now : Nat) :
    sessionStep s .awaitingJoin .shutdownSignal now = ⟨s, .awaitingJoin, [], []⟩ ∧
    (sessionStep s .awaitingJoin .joinTimeout now).phase = .closed ∧
    (sessionStep s .awaitingJoin .joinTimeout now).replies = [.error joinTimeoutText] ∧
    ∀ id username, (sessionStep s (.active id username) .shutdownSignal now).phase = .closed :=
  ⟨rfl, rfl, rfl, fun _ _ => rfl⟩

/-- Witness for C9 (amended), on the fresh registry: the shutdown signal
leaves an awaiting-join session in place; the join timeout closes it. -/
theorem c9_awaiting_join_amended_witness :
    sessionStep SharedState.new .awaitingJoin .shutdownSignal 5 =
      ⟨SharedState.new, .awaitingJoin, [], []⟩ ∧
    (sessionStep SharedState.new .awaitingJoin .joinTimeout 5).phase = .closed :=
  ⟨(c9_awaiting_join_amended SharedState.new 5).1,
   (c9_awaiting_join_amended SharedState.new 5).2.1⟩

/-! ## Client-side username validation (chat-client/src/client.rs) -/

/-- `char::is_ascii_alphanumeric`, on a byte. -/
def isAsciiAlnum (b : Nat) : Bool :=
  (48 ≤ b && b ≤ 57) || (65 ≤ b && b ≤ 90) || (97 ≤ b && b ≤ 122)

/-- The character set `validate_username` allows (client.rs lines
240-243): ASCII alphanumerics, `_` (95) and `-` (45).  A byte of a
multi-byte UTF-8 character is ≥ 128 and fails this test, exactly as the
corresponding char fails the char-level test in Rust, so the byte-level
and char-level readings agree. -/
def allowedUsernameChar (b : Nat) : Bool :=
  isAsciiAlnum b || b == 95 || b == 45

/-- "用户名不能为空" (client.rs, empty-username error). -/
def usernameEmptyText : RStr := [231, 148, 168, 230, 136, 183, 229, 144, 141, 228, 184, 141, 232, 131, 189, 228, 184, 186, 231, 169, 186]

/-- "用户名不能超过 " (client.rs, too-long error format head). -/
def usernameTooLongZhA : RStr := [231, 148, 168, 230, 136, 183, 229, 144, 141, 228, 184, 141, 232, 131, 189, 232, 182, 133, 232, 191, 135, 32]

/-- " 个字符" (client.rs, too-long error format tail). -/
def usernameTooLongZhB : RStr := [32, 228, 184, 170, 229, 173, 151, 231, 172, 166]

/-- "用户名只能包含字母、数字、下划线和连字符" (client.rs, charset error). -/
def usernameCharsetText : RStr := [231, 148, 168, 230, 136, 183, 229, 144, 141, 229, 143, 170, 232, 131, 189, 229, 140, 133, 229, 144, 171, 229, 173, 151, 230, 175, 141, 227, 128, 129, 230, 149, 176, 229, 173, 151, 227, 128, 129, 228, 184, 139, 229, 136, 146, 231, 186, 191, 229, 146, 140, 232, 191, 158, 229, 173, 151, 231, 172, 166]

/-- `ChatClient::validate_username` (client.rs lines 232-247): non-empty,
at most MAX_USERNAME_LEN bytes, and every character ASCII alphanumeric,
`_` or `-`. -/
def validate_username (username : RStr) : Except RStr Unit :=
  if username.isEmpty then .error usernameEmptyText
  else if username.length > MAX_USERNAME_LEN then
    .error (usernameTooLongZhA ++ natDecBytes MAX_USERNAME_LEN ++ usernameTooLongZhB)
  else if !(username.all allowedUsernameChar) then .error usernameCharsetText
  else .ok ()

/-- Counterexample to C2: the username "a!" contains `!` (byte 33), which
is outside the allowed character set, yet the server-side re-validation
(`ClientMessage::validate`) accepts it — the server checks only emptiness
and length, so "every username containing any other character is rejected
by the server's re-validation" is false. -/
theorem c2_server_accepts_bad_charset :
    ClientMessage.validate (.join [97, 33]) = .ok () ∧
    33 ∈ ([97, 33] : RStr) ∧ allowedUsernameChar 33 = false :=
  ⟨rfl, by decide, rfl⟩

/-- C2 as amended: the server-side validation accepts a Join username iff
it is non-empty and at most MAX_USERNAME_LEN (20) bytes — it enforces no
character-set restriction; the charset restriction (alnum, `_`, `-`) is
enforced only client-side, where `validate_username` accepts iff the
username is non-empty, at most 20 bytes, and drawn entirely from that
character set. -/
theorem c2_validation_amended (username : RStr) :
    (ClientMessage.validate (.join username) = .ok () ↔
      username ≠ [] ∧ username.length ≤ MAX_USERNAME_LEN) ∧
    (validate_username username = .ok () ↔
      username ≠ [] ∧ username.length ≤ MAX_USERNAME_LEN ∧
        username.all allowedUsernameChar = true) := by
  constructor
  · simp only [ClientMessage.validate]
    split_ifs with h1 h2
    · simp only [List.isEmpty_iff] at h1
      simp [h1]
    · simp only [List.isEmpty_iff] at h1
      constructor
      · intro h
        exact absurd h (by simp)
      · intro h
        omega
    · simp only [List.isEmpty_iff] at h1
      constructor
      · intro _
        exact ⟨h1, by omega⟩
      · intro _
        rfl
  · simp only [validate_username]
    split_ifs with h1 h2 h3
    · simp only [List.isEmpty_iff] at h1
      simp [h1]
    · simp only [List.isEmpty_iff] at h1
      constructor
      · intro h
        exact absurd h (by simp)
      · intro h
        omega
    · simp only [List.isEmpty_iff] at h1
      simp only [Bool.not_eq_true'] at h3
      constructor
      · intro h
        exact absurd h (by simp)
      · intro h
        rw [h.2.2] at h3
        exact absurd h3 (by simp)
    · simp only [List.isEmpty_iff] at h1
      simp only [Bool.not_eq_true', Bool.not_eq_false] at h3
      constructor
      · intro _
        exact ⟨h1, by omega, h3⟩
      · intro _
        rfl

/-- Witness for C2 (amended): "a_-" (non-empty, short, all-allowed) is
accepted by both the server-side and the client-side validation. -/
theorem c2_validation_amended_witness :
    ClientMessage.validate (.join [97, 95, 45]) = .ok () ∧
    validate_username [97, 95, 45] = .ok () :=
  ⟨(c2_validation_amended [97, 95, 45]).1.mpr (by decide),
   (c2_validation_amended [97, 95, 45]).2.mpr (by decide)⟩

/-! ## Client state and event handling (chat-client/src/client.rs) -/

/-- `MAX_MESSAGES: usize = 1000` (client.rs line 17). -/
def MAX_MESSAGES : Nat := 1000

/-- `ChatMessage` (client.rs lines 57-63), one history entry. -/
structure ChatMessageRec where
  username : RStr
  content : RStr
  timestamp : Nat
  is_system : Bool
deriving DecidableEq, Repr

/-- `ConnectionState` (client.rs lines 66-71). -/
inductive ConnectionState where
  | disconnected
  | connecting
  | connected (user_id : Nat) (username : RStr)
deriving DecidableEq, Repr

/-- `NetworkEvent` (client.rs lines 31-54). -/
inductive NetworkEvent where
  | connected (user_id : Nat) (online_users : List RStr)
  | connectFailed (reason : RStr)
  | chatMessage (username content : RStr) (timestamp : Nat)
  | userJoined (username : RStr)
  | userLeft (username : RStr)
  | error (message : RStr)
  | disconnected (reason : RStr)
deriving DecidableEq, Repr

/-- The UI-facing fields of `ChatClient` (client.rs lines 74-93); the two
channel endpoints are interaction points, not state, and are omitted. -/
structure ChatClient where
  state : ConnectionState
  messages : List ChatMessageRec
  online_users : List RStr
  input_text : RStr
  username : RStr
  error_message : Option RStr
deriving DecidableEq, Repr

/-- `ChatClient::add_message` (client.rs lines 210-216): evict the oldest
entry when the history is full, then append. -/
def ChatClient.add_message (c : ChatClient) (msg : ChatMessageRec) : ChatClient :=
  if c.messages.length ≥ MAX_MESSAGES then
    { c with messages := c.messages.tail ++ [msg] }
  else
    { c with messages := c.messages ++ [msg] }

/-- "已连接到服务器" duplicated above; `add_system_message` (client.rs
lines 218-229) stamps a system entry with the current time, passed here
as `now`. -/
def ChatClient.add_system_message (c : ChatClient) (now : Nat) (content : RStr) : ChatClient :=
  c.add_message ⟨sysUserText, content, now, true⟩

/-- "已断开连接: " (client.rs, disconnect system message format head). -/
def disconnectedSysHead : RStr := [229, 183, 178, 230, 150, 173, 229, 188, 128, 232, 191, 158, 230, 142, 165, 58, 32]

/-- `ChatClient::handle_event` (client.rs lines 161-208). -/
def ChatClient.handle_event (c : ChatClient) (now : Nat) (e : NetworkEvent) : ChatClient :=
  match e with
  | .connected user_id online_users =>
      match c.state with
      | .connecting =>
          ({ c with state := .connected user_id c.username,
                    error_message := none,
                    online_users := online_users }).add_system_message now connectedSysText
      | _ => c
  | .connectFailed reason =>
      { c with state := .disconnected, error_message := some reason }
  | .chatMessage username content timestamp =>
      c.add_message ⟨username, content, timestamp, false⟩
  | .userJoined username =>
      (if username ∈ c.online_users then c
       else { c with online_users := c.online_users ++ [username] }).add_system_message
        now (username ++ joinedSuffix)
  | .userLeft username =>
      ({ c with online_users := c.online_users.filter (fun u => u ≠ username) }).add_system_message
        now (username ++ leftSuffix)
  | .error message => { c with error_message := some message }
  | .disconnected reason =>
      ({ c with state := .disconnected,
                online_users := [] }).add_system_message now (disconnectedSysHead ++ reason)

@[simp] theorem add_message_online_users (c : ChatClient) (msg : ChatMessageRec) :
    (c.add_message msg).online_users = c.online_users := by
  unfold ChatClient.add_message
  split <;> rfl

@[simp] theorem add_system_message_online_users (c : ChatClient) (now : Nat) (content : RStr) :
    (c.add_system_message now content).online_users = c.online_users := by
  unfold ChatClient.add_system_message
  simp

/-- The only assumption C10 makes on an incoming event: the
`online_users` list delivered with a `Connected` event is itself
duplicate-free. -/
def NetworkEvent.deliveredNodup : NetworkEvent → Prop
  | .connected _ online_users => online_users.Nodup
  | _ => True

/-- C10: the client's online-user list never contains duplicate
usernames: `handle_event` adds on UserJoined only when absent, removes
every occurrence on UserLeft, clears on Disconnected, and replaces the
list on Connected with the (assumed duplicate-free) delivered snapshot,
so every event preserves the no-duplicates invariant. -/
theorem c10_online_users_nodup (c : ChatClient) (now : Nat) (e : NetworkEvent)
    (h1 : c.online_users.Nodup) (h2 : e.deliveredNodup) :
    (c.handle_event now e).online_users.Nodup := by
  cases e with
  | connected user_id online_users =>
      unfold ChatClient.handle_event
      cases c.state <;> simp_all [NetworkEvent.deliveredNodup]
  | connectFailed reason => exact h1
  | chatMessage username content timestamp =>
      unfold ChatClient.handle_event
      simpa using h1
  | userJoined username =>
      unfold ChatClient.handle_event
      by_cases hmem : username ∈ c.online_users
      · simpa [hmem] using h1
      · simp [hmem, List.nodup_append, h1, List.disjoint_singleton]
  | userLeft username =>
      unfold ChatClient.handle_event
      simpa using h1.filter _
  | error message => exact h1
  | disconnected reason =>
      unfold ChatClient.handle_event
      simp

/-- Witness for C10: a fresh connecting client receiving
`Connected{user_id: 1, online_users: ["bob"]}` ends with a
duplicate-free online-user list. -/
theorem c10_online_users_nodup_witness :
    ((⟨.connecting, [], [], [], [97, 108, 105, 99, 101], none⟩ : ChatClient).handle_event 0
        (.connected 1 [[98, 111, 98]])).online_users.Nodup :=
  c10_online_users_nodup _ 0 _ (by simp) (by simp [NetworkEvent.deliveredNodup])

end Chatroom
